import Mathlib

/-!
Verification of the client-side synchronization core of the avatar teaching
application: the Gesture Router, Motion Selector, Motion State Machine,
Gaze (Eye) Controller, Realtime Speech pipeline, Synchronization Coordinator
and Session Manager.  Each TypeScript component is shallowly embedded as
executable Lean definitions (stateful code becomes explicit state passing,
timers become explicit remaining-millisecond fields advanced by an `elapse`
step, collaborator calls become trace events), and the specified properties
are proved about those definitions.
-/

namespace Finxan

/-! ## Data model (frontend/src/types/index.ts) -/

/-- The closed gesture enumeration `GestureType`. -/
inductive GestureType where
  | idle | listening | greeting | pointLeft | pointRight | emphasis | warning
deriving DecidableEq, Repr

/-- The `type` field of a `TeachingSegment` (`'text' | 'image' | 'emphasis'`). -/
inductive SegmentType where
  | text | image | emphasis
deriving DecidableEq, Repr

/-- Animation clip names are strings (`MotionName` is a string union in the source). -/
abbrev MotionName := String

/-- Embedding of `TeachingSegment` record; optional fields become `Option`. -/
structure TeachingSegment where
  type : SegmentType
  content : String
  gesture : Option GestureType := none
  imageQuery : Option String := none
  duration : Option Nat := none
deriving DecidableEq, Repr

/-! ## String helpers modelling the JavaScript string operations used by the
source (on the ASCII texts the router handles). -/

/-- JS `\s` / whitespace as used by `trim` (ASCII fragment). -/
def isWsChar (c : Char) : Bool := c.isWhitespace

/-- JS `String.prototype.trim`: drop leading and trailing whitespace. -/
def jsTrim (s : String) : String :=
  String.mk (((s.data.dropWhile isWsChar).reverse.dropWhile isWsChar).reverse)

/-- JS `String.prototype.toLowerCase` on ASCII text: lowercase each char. -/
def jsLower (s : String) : List Char := s.data.map Char.toLower

/-- Literal prefix test on character lists. -/
def startsWithChars : List Char → List Char → Bool
  | [], _ => true
  | _ :: _, [] => false
  | p :: ps, c :: cs => p = c && startsWithChars ps cs

/-- Contiguous-substring test on character lists. -/
def containsSub (pat : List Char) : List Char → Bool
  | [] => pat.isEmpty
  | c :: rest => startsWithChars pat (c :: rest) || containsSub pat rest

/-- JS `lowerText.includes(keyword)`: substring containment. -/
def includesKw (lowerText : List Char) (kw : String) : Bool :=
  containsSub kw.data lowerText

/-! ## Gesture Router (frontend/src/services/GestureRouter.ts) -/

/-- A sentence terminator for the split regex `/[^.!?]+[.!?]+/g`. -/
def isTerminator (c : Char) : Bool := c = '.' || c = '!' || c = '?'

/-- Scanner equivalent to repeatedly matching `/[^.!?]+[.!?]+/g`:
`acc` holds the current partial match (reversed), `inTerm` records whether we
are inside the trailing `[.!?]+` run of the current match.  Characters at
which no match can start (leading terminators) are skipped, and a trailing
body with no terminator after it is discarded, exactly as the regex does. -/
def splitGo : List Char → List Char → Bool → List (List Char)
  | [], acc, inTerm => if inTerm then [acc.reverse] else []
  | c :: rest, acc, inTerm =>
    if isTerminator c then
      if acc.isEmpty then splitGo rest acc inTerm
      else splitGo rest (c :: acc) true
    else
      if inTerm then acc.reverse :: splitGo rest [c] false
      else splitGo rest (c :: acc) false

/-- Embedding of `text.match(/[^.!?]+[.!?]+/g) || [text]`: the sentence list, falling back
to the whole text when the regex finds no match. -/
def splitSentences (text : String) : List String :=
  let ms := splitGo text.data [] false
  if ms.isEmpty then [text] else ms.map String.mk

/-- Emphasis keyword list from `GestureRouter.isEmphasis`. -/
def emphasisKeywords : List String :=
  ["important", "crucial", "key point", "remember", "note that",
   "pay attention", "critical", "essential", "fundamental"]

/-- Embedding of `GestureRouter.isEmphasis`. -/
def isEmphasis (text : String) : Bool :=
  let lowerText := jsLower text
  emphasisKeywords.any (includesKw lowerText)

/-- The apostrophe character, for the keyword written `don't` in the source. -/
def apos : Char := Char.ofNat 39

/-- Warning keyword list from `GestureRouter.isWarning`. -/
def warningKeywords : List String :=
  ["warning", "caution", "careful", "avoid", String.mk ['d','o','n',apos,'t'],
   "mistake", "error", "wrong", "incorrect", "beware"]

/-- Embedding of `GestureRouter.isWarning`. -/
def isWarning (text : String) : Bool :=
  let lowerText := jsLower text
  warningKeywords.any (includesKw lowerText)

/-- Image keyword list from `GestureRouter.hasImageReference`. -/
def imageKeywords : List String :=
  ["look at", "see the", "observe", "notice", "image", "picture", "diagram",
   "chart", "graph", "illustration", "example here", "shown here"]

/-- Embedding of `GestureRouter.hasImageReference`. -/
def hasImageReference (text : String) : Bool :=
  let lowerText := jsLower text
  imageKeywords.any (includesKw lowerText)

/-! `extractImageQuery` matches `/(?:look at|see|observe|notice)\s+(?:the\s+)?([^.!?]+)/i`
with the JS engine's leftmost-match, ordered-alternative, greedy-with-backtracking
semantics, and returns the trimmed capture, else the first 50 characters. -/

/-- Case-insensitive literal prefix match, returning the remainder on success. -/
def ciPrefixDrop : List Char → List Char → Option (List Char)
  | [], s => some s
  | _ :: _, [] => none
  | p :: ps, c :: cs =>
    if p.toLower = c.toLower then ciPrefixDrop ps cs else none

/-- The capture group `([^.!?]+)` matched greedily at the given point:
fails when it would be empty. -/
def captureFrom (r : List Char) : Option (List Char) :=
  let cap := r.takeWhile (fun c => ¬ isTerminator c)
  if cap.isEmpty then none else cap

/-- Backtracking over the `\s+` inside the optional `the\s+`, from `j` ws
characters down to 1, each time attempting the capture group after them. -/
def tryTheWs (r : List Char) : Nat → Option (List Char)
  | 0 => none
  | j + 1 => captureFrom (r.drop (j + 1)) <|> tryTheWs r j

/-- The optional group `(?:the\s+)?` (greedy, tried before being skipped)
followed by the capture group. -/
def matchTheOpt (r : List Char) : Option (List Char) :=
  (match ciPrefixDrop ['t', 'h', 'e'] r with
   | some r3 => tryTheWs r3 ((r3.takeWhile isWsChar).length)
   | none => none) <|> captureFrom r

/-- Backtracking over the leading `\s+`, from `k` ws characters down to 1. -/
def tryKwWs (r : List Char) : Nat → Option (List Char)
  | 0 => none
  | k + 1 => matchTheOpt (r.drop (k + 1)) <|> tryKwWs r k

/-- The pattern after one of the keyword alternatives: `\s+(?:the\s+)?([^.!?]+)`. -/
def matchAfterKw (r : List Char) : Option (List Char) :=
  tryKwWs r ((r.takeWhile isWsChar).length)

/-- Try the keyword alternatives `look at|see|observe|notice` (in order) at
this position, continuing with the rest of the pattern. -/
def tryAlternativesAt (s : List Char) : Option (List Char) :=
  (ciPrefixDrop "look at".data s >>= matchAfterKw) <|>
  (ciPrefixDrop "see".data s >>= matchAfterKw) <|>
  (ciPrefixDrop "observe".data s >>= matchAfterKw) <|>
  (ciPrefixDrop "notice".data s >>= matchAfterKw)

/-- Scan left to right for the first position with a full match. -/
def scanPositions : List Char → Option (List Char)
  | [] => none
  | c :: rest => tryAlternativesAt (c :: rest) <|> scanPositions rest

/-- Embedding of `GestureRouter.extractImageQuery`. -/
def extractImageQuery (text : String) : String :=
  match scanPositions text.data with
  | some cap => jsTrim (String.mk cap)
  | none => String.mk (text.data.take 50)

/-- The classification loop body of `parseTeachingContent`: one pass over the
sentence list with the if/else-if chain of the source. -/
def parseLoop : List String → List TeachingSegment
  | [] => []
  | sentence :: rest =>
    let trimmed := jsTrim sentence
    if trimmed = "" then parseLoop rest
    else if isEmphasis trimmed then
      { type := .emphasis, content := trimmed, gesture := some .emphasis } :: parseLoop rest
    else if isWarning trimmed then
      { type := .text, content := trimmed, gesture := some .warning } :: parseLoop rest
    else if hasImageReference trimmed then
      { type := .image, content := trimmed, gesture := some .pointRight,
        imageQuery := some (extractImageQuery trimmed) } :: parseLoop rest
    else
      { type := .text, content := trimmed, gesture := some .pointLeft } :: parseLoop rest

/-- Embedding of `GestureRouter.parseTeachingContent`. -/
def parseTeachingContent (text : String) : List TeachingSegment :=
  parseLoop (splitSentences text)

/-- Spec-level classifier: each non-empty trimmed sentence is classified by
the first matching rule in priority order (emphasis, then warning, then
image reference, then default); empty-after-trim sentences produce nothing.
Written from the spec's wording, to be compared with `parseLoop`. -/
def classifySentence (sentence : String) : Option TeachingSegment :=
  let t := jsTrim sentence
  if t = "" then none
  else if isEmphasis t then
    some { type := .emphasis, content := t, gesture := some .emphasis }
  else if isWarning t then
    some { type := .text, content := t, gesture := some .warning }
  else if hasImageReference t then
    some { type := .image, content := t, gesture := some .pointRight,
           imageQuery := some (extractImageQuery t) }
  else
    some { type := .text, content := t, gesture := some .pointLeft }

/-- Embedding of `GestureRouter.optimizeSegments` inner loop: `cur` is the pending merged
segment, merged with the next segment when gesture and type agree. -/
def optGo (cur : TeachingSegment) : List TeachingSegment → List TeachingSegment
  | [] => [cur]
  | s :: rest =>
    if s.gesture = cur.gesture ∧ s.type = cur.type then
      optGo { cur with content := cur.content ++ " " ++ s.content } rest
    else
      cur :: optGo s rest

/-- Embedding of `GestureRouter.optimizeSegments`. -/
def optimizeSegments : List TeachingSegment → List TeachingSegment
  | [] => []
  | s :: rest => optGo s rest

/-! ### Gesture Router theorems -/

theorem parseLoop_filterMap (l : List String) :
    parseLoop l = l.filterMap classifySentence := by
  induction l with
  | nil => rfl
  | cons s rest ih =>
    simp only [parseLoop, classifySentence, List.filterMap_cons]
    split_ifs <;> simp [ih]

/-- C6: `parseTeachingContent` is total (a Lean function), maps empty input to
empty output, and equals the spec-level pipeline that splits the text into
sentences and classifies each non-empty trimmed sentence by the first
matching rule in priority order, preserving order; on the concrete input the
result is the emphasis segment followed by the image segment with
`imageQuery = "diagram on screen"`. -/
theorem parseTeachingContent_spec :
    (∀ text : String,
        parseTeachingContent text = (splitSentences text).filterMap classifySentence)
    ∧ parseTeachingContent "" = []
    ∧ parseTeachingContent
        "Remember: gravity pulls objects down. Look at the diagram on screen." =
      [{ type := .emphasis, content := "Remember: gravity pulls objects down.",
         gesture := some .emphasis },
       { type := .image, content := "Look at the diagram on screen.",
         gesture := some .pointRight, imageQuery := some "diagram on screen" }] := by
  refine ⟨fun text => parseLoop_filterMap _, rfl, by decide⟩

/-! ### `optimizeSegments` lemmas: the output never has two adjacent segments
sharing the same `(type, gesture)` key, hence a second pass is the identity. -/

/-- Adjacent-distinctness relation: the later segment does not share the
`(gesture, type)` key of its predecessor. -/
def segKeyDistinct (a b : TeachingSegment) : Prop :=
  ¬ (b.gesture = a.gesture ∧ b.type = a.type)

theorem optGo_head_key (l : List TeachingSegment) (cur : TeachingSegment) :
    ∃ c rest2, optGo cur l = c :: rest2 ∧ c.gesture = cur.gesture ∧ c.type = cur.type := by
  induction l generalizing cur with
  | nil => exact ⟨cur, [], rfl, rfl, rfl⟩
  | cons s rest ih =>
    by_cases h : s.gesture = cur.gesture ∧ s.type = cur.type
    · obtain ⟨c, rest2, hgo, hg, ht⟩ := ih { cur with content := cur.content ++ " " ++ s.content }
      exact ⟨c, rest2, by simp [optGo, h, hgo], hg, ht⟩
    · exact ⟨cur, optGo s rest, by simp [optGo, h], rfl, rfl⟩

theorem optGo_chain (l : List TeachingSegment) (cur : TeachingSegment) :
    List.Chain' segKeyDistinct (optGo cur l) := by
  induction l generalizing cur with
  | nil => simp [optGo]
  | cons s rest ih =>
    by_cases h : s.gesture = cur.gesture ∧ s.type = cur.type
    · simpa [optGo, h] using ih { cur with content := cur.content ++ " " ++ s.content }
    · simp only [optGo, h, if_false]
      refine List.chain'_cons'.mpr ⟨?_, ih s⟩
      intro b hb
      obtain ⟨c, rest2, hgo, hg, ht⟩ := optGo_head_key rest s
      rw [hgo] at hb
      simp only [List.head?_cons, Option.mem_def, Option.some.injEq] at hb
      subst hb
      intro hcontra
      exact h ⟨hg ▸ hcontra.1, ht ▸ hcontra.2⟩

theorem optGo_of_chain (l : List TeachingSegment) (cur : TeachingSegment)
    (h : List.Chain' segKeyDistinct (cur :: l)) : optGo cur l = cur :: l := by
  induction l generalizing cur with
  | nil => rfl
  | cons s rest ih =>
    obtain ⟨hR, hchain⟩ := List.chain'_cons.mp h
    show (if s.gesture = cur.gesture ∧ s.type = cur.type then _ else _) = _
    rw [if_neg hR, ih s hchain]

/-- C9: `optimizeSegments` merges two adjacent segments sharing identical
`(type, gesture)` by concatenating their content with a single space, and it
is idempotent: applying it twice equals applying it once. -/
theorem optimizeSegments_merge_and_idem :
    (∀ (cur s : TeachingSegment) (rest : List TeachingSegment),
        s.gesture = cur.gesture → s.type = cur.type →
        optimizeSegments (cur :: s :: rest) =
          optimizeSegments ({ cur with content := cur.content ++ " " ++ s.content } :: rest))
    ∧ ∀ l : List TeachingSegment, optimizeSegments (optimizeSegments l) = optimizeSegments l := by
  constructor
  · intro cur s rest h1 h2
    simp [optimizeSegments, optGo, h1, h2]
  · intro l
    cases l with
    | nil => rfl
    | cons a rest =>
      show optimizeSegments (optGo a rest) = optGo a rest
      obtain ⟨c, l2, hgo, _, _⟩ := optGo_head_key rest a
      rw [hgo]
      show optGo c l2 = c :: l2
      exact optGo_of_chain l2 c (hgo ▸ optGo_chain rest a)

/-- Witness for `optimizeSegments_merge_and_idem` at a concrete merged pair. -/
theorem optimizeSegments_merge_and_idem_witness :
    optimizeSegments
        [⟨.text, "first", some .pointLeft, none, none⟩,
         ⟨.text, "second", some .pointLeft, none, none⟩] =
      optimizeSegments [⟨.text, "first second", some .pointLeft, none, none⟩] ∧
    optimizeSegments
        (optimizeSegments [⟨.text, "first", some .pointLeft, none, none⟩,
                           ⟨.text, "second", some .pointLeft, none, none⟩]) =
      optimizeSegments [⟨.text, "first", some .pointLeft, none, none⟩,
                        ⟨.text, "second", some .pointLeft, none, none⟩] :=
  ⟨optimizeSegments_merge_and_idem.1
      ⟨.text, "first", some .pointLeft, none, none⟩
      ⟨.text, "second", some .pointLeft, none, none⟩ [] rfl rfl,
   optimizeSegments_merge_and_idem.2
      [⟨.text, "first", some .pointLeft, none, none⟩,
       ⟨.text, "second", some .pointLeft, none, none⟩]⟩

/-! ## Motion Selector (frontend/src/config/motionMapping.ts) -/

/-- Embedding of `MOTION_MAPPING`: gesture to clip-name list. -/
def MOTION_MAPPING : GestureType → List MotionName
  | .idle => ["haru_g_idle"]
  | .listening => ["haru_g_idle"]
  | .greeting => ["haru_g_m01", "haru_g_m02", "haru_g_m03", "haru_g_m04", "haru_g_m05"]
  | .pointLeft => ["haru_g_m06", "haru_g_m07", "haru_g_m08", "haru_g_m09", "haru_g_m13",
                   "haru_g_m14", "haru_g_m15", "haru_g_m22"]
  | .pointRight => ["haru_g_m16", "haru_g_m17", "haru_g_m18", "haru_g_m19", "haru_g_m23"]
  | .emphasis => ["haru_g_m10", "haru_g_m11", "haru_g_m12", "haru_g_m24"]
  | .warning => ["haru_g_m20", "haru_g_m21"]

/-- Embedding of `MotionConfig`; the float `duration` in seconds is stored exactly in
tenths of a second (`durationTenths`), so `2.9` becomes `29`. -/
structure MotionConfig where
  name : MotionName
  gesture : GestureType
  priority : Nat
  durationTenths : Nat
  description : String
deriving DecidableEq, Repr

/-- Embedding of `MOTION_CONFIGS`: the static clip catalog. -/
def MOTION_CONFIGS : List MotionConfig := [
  ⟨"haru_g_idle", .idle, 0, 100, "Neutral idle pose"⟩,
  ⟨"haru_g_m01", .greeting, 5, 29, "Head nod greeting"⟩,
  ⟨"haru_g_m02", .greeting, 5, 30, "Wave greeting"⟩,
  ⟨"haru_g_m03", .greeting, 5, 30, "Bow greeting"⟩,
  ⟨"haru_g_m04", .greeting, 5, 30, "Friendly wave"⟩,
  ⟨"haru_g_m05", .greeting, 5, 30, "Welcome gesture"⟩,
  ⟨"haru_g_m06", .pointLeft, 3, 40, "Point left casual"⟩,
  ⟨"haru_g_m07", .pointLeft, 3, 40, "Point left formal"⟩,
  ⟨"haru_g_m08", .pointLeft, 3, 40, "Gesture left explain"⟩,
  ⟨"haru_g_m09", .pointLeft, 3, 40, "Indicate left"⟩,
  ⟨"haru_g_m10", .emphasis, 4, 55, "Excited emphasis"⟩,
  ⟨"haru_g_m11", .emphasis, 4, 40, "Important point"⟩,
  ⟨"haru_g_m12", .emphasis, 4, 40, "Key concept"⟩,
  ⟨"haru_g_m13", .pointLeft, 3, 40, "Teaching gesture left"⟩,
  ⟨"haru_g_m14", .pointLeft, 3, 40, "Explain left detail"⟩,
  ⟨"haru_g_m15", .pointLeft, 3, 40, "Reference left"⟩,
  ⟨"haru_g_m16", .pointRight, 3, 40, "Point right casual"⟩,
  ⟨"haru_g_m17", .pointRight, 3, 40, "Point right formal"⟩,
  ⟨"haru_g_m18", .pointRight, 3, 40, "Gesture right explain"⟩,
  ⟨"haru_g_m19", .pointRight, 3, 40, "Indicate right"⟩,
  ⟨"haru_g_m20", .warning, 4, 60, "Concerned expression"⟩,
  ⟨"haru_g_m21", .warning, 4, 40, "Caution gesture"⟩,
  ⟨"haru_g_m22", .pointLeft, 3, 40, "Additional left gesture"⟩,
  ⟨"haru_g_m23", .pointRight, 3, 40, "Additional right gesture"⟩,
  ⟨"haru_g_m24", .emphasis, 4, 40, "Additional emphasis"⟩,
  ⟨"haru_g_m25", .greeting, 5, 30, "Additional greeting"⟩,
  ⟨"haru_g_m26", .idle, 1, 40, "Relaxed idle"⟩]

/-- Embedding of `getMotionForGesture`: round-robin clip selection with idle fallback. -/
def getMotionForGesture (gesture : GestureType) (index : Nat) : MotionName :=
  let motions := MOTION_MAPPING gesture
  if motions.length = 0 then "haru_g_idle"
  else motions.getD (index % motions.length) "haru_g_idle"

/-- Embedding of `getMotionConfig`: catalog lookup by name. -/
def getMotionConfig (motionName : MotionName) : Option MotionConfig :=
  MOTION_CONFIGS.find? (fun config => config.name = motionName)

/-- Embedding of `getMotionDuration`: duration in ms (`duration * 1000`, i.e. tenths times
100), defaulting to 3000 for an unknown clip. -/
def getMotionDuration (motionName : MotionName) : Nat :=
  match getMotionConfig motionName with
  | some config => config.durationTenths * 100
  | none => 3000

/-! ### Motion Selector theorem (C10) -/

/-- C10: every gesture maps to a non-empty clip list (the `haru_g_idle`
fallback branch is unreachable), `getMotionForGesture` always returns a clip
from the mapped list that appears in the `MOTION_CONFIGS` catalog, and
`getMotionDuration` of the selected clip is that catalog entry's duration
(never the unknown-clip default path). -/
theorem getMotionForGesture_mem (g : GestureType) (i : Nat) :
    getMotionForGesture g i ∈ MOTION_MAPPING g := by
  unfold getMotionForGesture
  have hlen : (MOTION_MAPPING g).length ≠ 0 := by cases g <;> decide
  rw [if_neg hlen]
  have hlt : i % (MOTION_MAPPING g).length < (MOTION_MAPPING g).length :=
    Nat.mod_lt _ (Nat.pos_of_ne_zero hlen)
  rw [List.getD_eq_getElem _ _ hlt]
  exact List.getElem_mem _

theorem getMotionForGesture_in_catalog :
    (∀ g : GestureType, (MOTION_MAPPING g).length ≠ 0)
    ∧ (∀ (g : GestureType) (i : Nat), getMotionForGesture g i ∈ MOTION_MAPPING g)
    ∧ ∀ (g : GestureType) (i : Nat),
        ∃ cfg ∈ MOTION_CONFIGS, cfg.name = getMotionForGesture g i ∧
          getMotionDuration (getMotionForGesture g i) = cfg.durationTenths * 100 := by
  refine ⟨by intro g; cases g <;> decide, getMotionForGesture_mem, ?_⟩
  intro g i
  have hall : ∀ m ∈ MOTION_MAPPING g,
      ∃ cfg ∈ MOTION_CONFIGS, cfg.name = m ∧
        getMotionDuration m = cfg.durationTenths * 100 := by
    cases g <;> decide
  exact hall _ (getMotionForGesture_mem g i)

/-! ## Motion State Machine (frontend/src/services/MotionManager.ts)

The manager's async methods suspend at `await this.model.motion(...)` inside
`playMotion`; the embedding splits each gesture request into the synchronous
part (`requestGesture`) and the resumption when that awaited motion call
resolves (`completeStep`), which clears the transitioning flag and drains one
queued gesture, exactly as the code after the `await`. Collaborator calls
are recorded in `playedMotions`. -/

/-- Embedding of `HaruState` behavioral states. -/
inductive HaruState where
  | idle | listening | speaking | gesturing
deriving DecidableEq, Repr

/-- Embedding of `Map.get(g) ?? 0` on the per-gesture occurrence counter. -/
def mapGet : List (GestureType × Nat) → GestureType → Nat
  | [], _ => 0
  | (k, v) :: rest, g => if k = g then v else mapGet rest g

/-- Embedding of `Map.set(g, v)`: replace in place or append. -/
def mapSet : List (GestureType × Nat) → GestureType → Nat → List (GestureType × Nat)
  | [], g, v => [(g, v)]
  | (k, w) :: rest, g, v =>
    if k = g then (g, v) :: rest else (k, w) :: mapSet rest g v

/-- State of a `MotionManager` instance. -/
structure MMState where
  modelSet : Bool
  currentMotion : MotionName
  currentState : HaruState
  isTransitioning : Bool
  motionQueue : List GestureType
  returnToIdleRemaining : Option Nat
  gestureCounter : List (GestureType × Nat)
  inFlightMotion : Option (MotionName × Bool)
  playedMotions : List (MotionName × Bool)
deriving DecidableEq, Repr

/-- Whether a gesture plays its clip looped (`gesture === 'idle' || 'listening'`). -/
def isLoopGesture : GestureType → Bool
  | .idle => true
  | .listening => true
  | _ => false

/-- The behavioral state assigned by `requestGesture`. -/
def gestureTargetState : GestureType → HaruState
  | .idle => .idle
  | .listening => .listening
  | _ => .gesturing

/-- The synchronous prefix of `playMotion`: with no model the request is
ignored; otherwise the `model.motion` call is issued (recorded) and awaited. -/
def playMotionBegin (motionName : MotionName) (loop : Bool) (s : MMState) : MMState :=
  if s.modelSet then
    { s with inFlightMotion := some (motionName, loop),
             playedMotions := s.playedMotions ++ [(motionName, loop)] }
  else s

/-- Embedding of `MotionManager.requestGesture` up to its suspension point: queue the
gesture when a transition is in flight, else mark transitioning, cancel the
idle-return timer, pick the clip by counter, set the behavioral state, and
begin playing. -/
def requestGesture (gesture : GestureType) (s : MMState) : MMState :=
  if s.isTransitioning then
    { s with motionQueue := s.motionQueue ++ [gesture] }
  else
    let s1 := { s with isTransitioning := true, returnToIdleRemaining := none }
    let counter := mapGet s1.gestureCounter gesture
    let motion := getMotionForGesture gesture counter
    let s2 := { s1 with gestureCounter := mapSet s1.gestureCounter gesture (counter + 1),
                        currentState := gestureTargetState gesture }
    playMotionBegin motion (isLoopGesture gesture) s2

/-- The remainder of `playMotion` after `await model.motion` resolves:
record the current motion and, for a one-shot non-idle clip, schedule the
return-to-idle timer for the clip duration. -/
def motionResolved (s : MMState) : MMState :=
  match s.inFlightMotion with
  | none => s
  | some (m, loop) =>
    let s1 := { s with currentMotion := m, inFlightMotion := none }
    if loop = false ∧ m ≠ "haru_g_idle" then
      { s1 with returnToIdleRemaining := some (getMotionDuration m) }
    else s1

/-- Embedding of `MotionManager.processQueue`: drain one queued gesture, if any. -/
def processQueue (s : MMState) : MMState :=
  if s.isTransitioning then s
  else match s.motionQueue with
       | [] => s
       | g :: rest => requestGesture g { s with motionQueue := rest }

/-- Resumption of `requestGesture` after its awaited `playMotion` resolves:
clear the transitioning flag and process the queue. -/
def completeStep (s : MMState) : MMState :=
  processQueue { motionResolved s with isTransitioning := false }

/-- A `MotionManager` after initialization with a model attached, idle. -/
def mmReady : MMState :=
  { modelSet := true, currentMotion := "haru_g_idle", currentState := .idle,
    isTransitioning := false, motionQueue := [], returnToIdleRemaining := none,
    gestureCounter := [], inFlightMotion := none, playedMotions := [] }

/-! ### Motion State Machine theorem (C2) -/

/-- C2: at most one transition is in flight — a `requestGesture` issued while
transitioning only appends to the pending queue (no playback starts); and in
the concrete scenario of three requests issued while the first is still
transitioning, exactly 2 are queued and all 3 play one at a time, in FIFO
order, one new clip per transition completion. -/
theorem motionManager_single_flight :
    (∀ (s : MMState) (g : GestureType), s.isTransitioning = true →
        requestGesture g s = { s with motionQueue := s.motionQueue ++ [g] })
    ∧ (let s1 := requestGesture .emphasis mmReady
       let s2 := requestGesture .warning s1
       let s3 := requestGesture .pointRight s2
       let s4 := completeStep s3
       let s5 := completeStep s4
       let s6 := completeStep s5
       s3.motionQueue = [.warning, .pointRight] ∧
       s3.playedMotions = [("haru_g_m10", false)] ∧
       s3.isTransitioning = true ∧
       s4.playedMotions = [("haru_g_m10", false), ("haru_g_m20", false)] ∧
       s4.motionQueue = [.pointRight] ∧ s4.isTransitioning = true ∧
       s5.playedMotions = [("haru_g_m10", false), ("haru_g_m20", false), ("haru_g_m16", false)] ∧
       s5.motionQueue = [] ∧ s5.isTransitioning = true ∧
       s6.playedMotions = [("haru_g_m10", false), ("haru_g_m20", false), ("haru_g_m16", false)] ∧
       s6.motionQueue = [] ∧ s6.isTransitioning = false) := by
  constructor
  · intro s g h
    simp [requestGesture, h]
  · decide

/-- Witness for `motionManager_single_flight`: a request issued in a
transitioning state is queued. -/
theorem motionManager_single_flight_witness :
    requestGesture .greeting { mmReady with isTransitioning := true } =
      { { mmReady with isTransitioning := true } with
        motionQueue := ({ mmReady with isTransitioning := true } : MMState).motionQueue
          ++ [.greeting] } :=
  motionManager_single_flight.1 { mmReady with isTransitioning := true } .greeting rfl

/-! ## Gaze Controller (`EyeController`)

`lookLeft`/`lookRight` set the `ParamAngleX` head-angle parameter (recorded
in the `angleSets` trace) and (re)arm the single return-to-center timeout;
`lookCenter` recenters and cancels it.  The timeout is modelled by its
remaining milliseconds, advanced by `gazeElapse`. -/

inductive GazeDirection where
  | left | right | center
deriving DecidableEq, Repr

/-- State of an `EyeController` instance. -/
structure EyeState where
  modelSet : Bool
  currentDirection : GazeDirection
  returnTimerRemaining : Option Nat
  angleSets : List Int
deriving DecidableEq, Repr

/-- Embedding of `EyeController.lookCenter`: recenter and cancel any pending timer. -/
def lookCenter (s : EyeState) : EyeState :=
  if s.modelSet then
    { s with currentDirection := .center, returnTimerRemaining := none,
             angleSets := s.angleSets ++ [0] }
  else s

/-- Embedding of `EyeController.lookLeft`: set −15, record direction, and (re)schedule the
auto return-to-center timer (`scheduleReturnToCenter` clears any existing
timeout first, so the single timer slot is overwritten). -/
def lookLeft (duration : Nat) (s : EyeState) : EyeState :=
  if s.modelSet then
    { s with currentDirection := .left, returnTimerRemaining := some duration,
             angleSets := s.angleSets ++ [-15] }
  else s

/-- Embedding of `EyeController.lookRight`: set +15 and (re)schedule the timer. -/
def lookRight (duration : Nat) (s : EyeState) : EyeState :=
  if s.modelSet then
    { s with currentDirection := .right, returnTimerRemaining := some duration,
             angleSets := s.angleSets ++ [15] }
  else s

/-- Advance time by `t` ms: when the single-shot timer expires it fires
`lookCenter()` exactly once and is gone. -/
def gazeElapse (t : Nat) (s : EyeState) : EyeState :=
  match s.returnTimerRemaining with
  | none => s
  | some r =>
    if r ≤ t then lookCenter { s with returnTimerRemaining := none }
    else { s with returnTimerRemaining := some (r - t) }

/-- An `EyeController` with a model attached, centered, no timer. -/
def eyeReady : EyeState :=
  { modelSet := true, currentDirection := .center, returnTimerRemaining := none,
    angleSets := [] }

/-! ### Gaze Controller theorem (C8) -/

/-- C8: with a model attached, `lookLeft`/`lookRight` each arm the single
auto-return timer slot for exactly their duration (cancelling any pending
timer) and `lookCenter` cancels it, so at most one timer is alive; in the
concrete scenario `lookLeft 500` then `lookRight 500` after 300ms, the first
auto-return is cancelled, and after 1000ms of idleness the direction is
center, reached exactly once (one single `ParamAngleX := 0` write, and
further idle time changes nothing). -/
theorem gaze_single_timer :
    (∀ (s : EyeState) (d : Nat), s.modelSet = true →
        (lookLeft d s).returnTimerRemaining = some d ∧
        (lookRight d s).returnTimerRemaining = some d ∧
        (lookCenter s).returnTimerRemaining = none)
    ∧ (let s1 := lookLeft 500 eyeReady
       let s2 := gazeElapse 300 s1
       let s3 := lookRight 500 s2
       let s4 := gazeElapse 1000 s3
       let s5 := gazeElapse 1000 s4
       s2.returnTimerRemaining = some 200 ∧
       s3.returnTimerRemaining = some 500 ∧
       s3.angleSets = [-15, 15] ∧
       s4.currentDirection = .center ∧
       s4.angleSets = [-15, 15, 0] ∧
       s4.returnTimerRemaining = none ∧
       s5 = s4) := by
  constructor
  · intro s d h
    exact ⟨by simp [lookLeft, h], by simp [lookRight, h], by simp [lookCenter, h]⟩
  · decide

/-- Witness for `gaze_single_timer` at a state holding a pending timer. -/
theorem gaze_single_timer_witness :
    (lookLeft 250 { eyeReady with returnTimerRemaining := some 400 }).returnTimerRemaining
        = some 250 ∧
    (lookRight 250 { eyeReady with returnTimerRemaining := some 400 }).returnTimerRemaining
        = some 250 ∧
    (lookCenter { eyeReady with returnTimerRemaining := some 400 }).returnTimerRemaining
        = none :=
  gaze_single_timer.1 { eyeReady with returnTimerRemaining := some 400 } 250 rfl

/-! ## Realtime speech recognition engine (`WebSpeechEngine`)

Callbacks become trace events; the 1000ms silence timeout becomes a
remaining-ms field advanced by `speechElapse`. -/

/-- Observable engine outputs: transcript callbacks, the end-of-utterance
callback, a forwarded error, the arming of the 1000ms error-restart timeout,
and a `recognition.stop()` call on the underlying session. -/
inductive SpeechOut where
  | transcriptCb (text : String) (isFinal : Bool)
  | endCb (finalText : String)
  | forwardError (err : String)
  | restartScheduled
  | sessionStop
deriving DecidableEq, Repr

/-- State of a `WebSpeechEngine` instance. -/
structure EngineState where
  isActive : Bool
  accumulatedText : String
  silenceRemaining : Option Nat
deriving DecidableEq, Repr

/-- Embedding of `SILENCE_THRESHOLD`. -/
def SILENCE_THRESHOLD : Nat := 1000

/-- Embedding of `recognition.onresult`: clear the silence timer, fold the batch of
`(transcript, isFinal)` results into interim/final transcripts and the
accumulated buffer, emit the transcript callbacks, and restart the silence
timer. -/
def onResult (results : List (String × Bool)) (s : EngineState) :
    EngineState × List SpeechOut :=
  let interimTranscript := String.join ((results.filter (fun r => r.2 = false)).map (·.1))
  let finalTranscript := String.join ((results.filter (fun r => r.2 = true)).map (fun r => r.1 ++ " "))
  let acc := s.accumulatedText ++ finalTranscript
  let outs1 := if interimTranscript ≠ "" then
      [SpeechOut.transcriptCb (acc ++ interimTranscript) false] else []
  let outs2 := if finalTranscript ≠ "" then
      [SpeechOut.transcriptCb (jsTrim acc) true] else []
  ({ s with accumulatedText := acc, silenceRemaining := some SILENCE_THRESHOLD },
   outs1 ++ outs2)

/-- Advance time by `t` ms: when the silence timeout fires with non-empty
trimmed accumulated text, it emits the end-of-utterance callback with the
trimmed buffer and clears the buffer; the session is never stopped. -/
def speechElapse (t : Nat) (s : EngineState) : EngineState × List SpeechOut :=
  match s.silenceRemaining with
  | none => (s, [])
  | some r =>
    if r ≤ t then
      if jsTrim s.accumulatedText ≠ "" then
        ({ s with accumulatedText := "", silenceRemaining := none },
         [SpeechOut.endCb (jsTrim s.accumulatedText)])
      else ({ s with silenceRemaining := none }, [])
    else ({ s with silenceRemaining := some (r - t) }, [])

/-- Embedding of `recognition.onerror`: `no-speech` returns early (suppressed); every
other error is forwarded to the error callback; `network`/`audio-capture`
additionally arm the 1000ms restart timeout. -/
def onRecError (err : String) (s : EngineState) : EngineState × List SpeechOut :=
  if err = "no-speech" then (s, [])
  else
    let outs := [SpeechOut.forwardError err]
    if err = "network" ∨ err = "audio-capture" then
      (s, outs ++ [SpeechOut.restartScheduled])
    else (s, outs)

/-- Embedding of `WebSpeechEngine.stop`: deactivate, clear the silence timer, stop the
underlying session. -/
def engineStop (s : EngineState) : EngineState × List SpeechOut :=
  ({ s with isActive := false, silenceRemaining := none }, [SpeechOut.sessionStop])

/-- Engine state right after `start()`. -/
def recReady : EngineState :=
  { isActive := true, accumulatedText := "", silenceRemaining := none }

/-- Driver inputs: a recognition result batch, or quiet passage of time. -/
inductive RecInput where
  | result (results : List (String × Bool))
  | quiet (ms : Nat)
deriving DecidableEq, Repr

/-- Run the engine over a list of inputs, concatenating outputs. -/
def runRec (s : EngineState) : List RecInput → EngineState × List SpeechOut
  | [] => (s, [])
  | .result rs :: rest =>
    let p := onResult rs s
    let q := runRec p.1 rest
    (q.1, p.2 ++ q.2)
  | .quiet t :: rest =>
    let p := speechElapse t s
    let q := runRec p.1 rest
    (q.1, p.2 ++ q.2)

/-- Final results each followed by a quiet gap. -/
def gappedFinals : List (String × Nat) → List RecInput
  | [] => []
  | (txt, gap) :: rest => .result [(txt, true)] :: .quiet gap :: gappedFinals rest

/-! ### Realtime speech theorems (C4, C5) -/

theorem runRec_no_end_of_short_gaps (l : List (String × Nat)) (s : EngineState)
    (h : ∀ p ∈ l, p.2 < SILENCE_THRESHOLD) :
    ∀ txt, SpeechOut.endCb txt ∉ (runRec s (gappedFinals l)).2 := by
  induction l generalizing s with
  | nil => intro txt hmem; simp [gappedFinals, runRec] at hmem
  | cons p rest ih =>
    intro txt hmem
    have hgap : p.2 < SILENCE_THRESHOLD := h p (List.mem_cons_self ..)
    have hnotle : ¬ (SILENCE_THRESHOLD ≤ p.2) := Nat.not_le_of_lt hgap
    simp only [gappedFinals, runRec, onResult, speechElapse, hnotle, if_false,
      List.mem_append] at hmem
    rcases hmem with (hmem | hmem) | hmem | hmem
    · split at hmem <;> simp_all
    · split at hmem <;> simp_all
    · exact absurd hmem (by simp)
    · exact ih _ (fun q hq => h q (List.mem_cons_of_mem _ hq)) txt hmem

/-- C4: every incoming result leaves the 1000ms silence timer armed; when
the timer fires with non-empty trimmed accumulated text, exactly one
end-of-utterance callback fires with the trimmed buffer, the buffer is
cleared and listening continues (state otherwise unchanged, no session
stop); final results separated by gaps under 1000ms produce no
end-of-utterance callback; and a single final result followed by 1000ms of
silence produces exactly one end-of-utterance callback with the accumulated
text. -/
theorem silence_timer_utterances :
    (∀ (rs : List (String × Bool)) (s : EngineState),
        (onResult rs s).1.silenceRemaining = some SILENCE_THRESHOLD)
    ∧ (∀ (s : EngineState) (r t : Nat), s.silenceRemaining = some r → r ≤ t →
        jsTrim s.accumulatedText ≠ "" →
        speechElapse t s = ({ s with accumulatedText := "", silenceRemaining := none },
          [SpeechOut.endCb (jsTrim s.accumulatedText)]))
    ∧ (∀ (l : List (String × Nat)) (s : EngineState),
        (∀ p ∈ l, p.2 < SILENCE_THRESHOLD) →
        ∀ txt, SpeechOut.endCb txt ∉ (runRec s (gappedFinals l)).2)
    ∧ runRec recReady [.result [("hello world", true)], .quiet 1000] =
        ({ isActive := true, accumulatedText := "", silenceRemaining := none },
         [SpeechOut.transcriptCb "hello world" true, SpeechOut.endCb "hello world"]) := by
  refine ⟨?_, ?_, runRec_no_end_of_short_gaps, by decide⟩
  · intro rs s; simp [onResult]
  · intro s r t hr hle hne
    simp [speechElapse, hr, hle, hne]

/-- Witness for `silence_timer_utterances`: a fire of the armed timer on a
non-empty buffer, and a no-callback short-gap run. -/
theorem silence_timer_utterances_witness :
    speechElapse 1000 { isActive := true, accumulatedText := "hi there ",
                        silenceRemaining := some 1000 } =
      ({ isActive := true, accumulatedText := "", silenceRemaining := none },
       [SpeechOut.endCb "hi there"]) ∧
    ∀ txt, SpeechOut.endCb txt ∉
      (runRec recReady (gappedFinals [("a", 400), ("b", 999)])).2 :=
  ⟨silence_timer_utterances.2.1 _ 1000 1000 rfl (by decide) (by decide),
   silence_timer_utterances.2.2.1 [("a", 400), ("b", 999)] recReady (by decide)⟩

/-- C5 counterexample: a `network` error IS forwarded to the error callback
(in addition to arming the restart), contradicting "absorbed internally
without being forwarded". -/
theorem onRecError_network_forwarded :
    (onRecError "network" recReady).2 =
      [SpeechOut.forwardError "network", SpeechOut.restartScheduled] ∧
    SpeechOut.forwardError "network" ∈ (onRecError "network" recReady).2 := by
  decide

/-- C5 (amended): `no-speech` is suppressed (nothing forwarded, state
untouched, listening continues); `network`/`audio-capture` are forwarded to
the error callback and arm the 1000ms auto-restart; all other errors are
forwarded without auto-restart. -/
theorem onRecError_policy :
    (∀ s, onRecError "no-speech" s = (s, []))
    ∧ (∀ err s, err = "network" ∨ err = "audio-capture" →
        onRecError err s = (s, [SpeechOut.forwardError err, SpeechOut.restartScheduled]))
    ∧ (∀ err s, err ≠ "no-speech" → err ≠ "network" → err ≠ "audio-capture" →
        onRecError err s = (s, [SpeechOut.forwardError err])) := by
  refine ⟨fun s => rfl, ?_, ?_⟩
  · intro err s h
    have hne : err ≠ "no-speech" := by rcases h with h | h <;> subst h <;> decide
    simp [onRecError, hne, h]
  · intro err s h1 h2 h3
    have : ¬ (err = "network" ∨ err = "audio-capture") := by
      rintro (h | h) <;> [exact h2 h; exact h3 h]
    simp [onRecError, h1, this]

/-- Witness for `onRecError_policy` on concrete error codes. -/
theorem onRecError_policy_witness :
    onRecError "audio-capture" recReady =
      (recReady, [SpeechOut.forwardError "audio-capture", SpeechOut.restartScheduled]) ∧
    onRecError "not-allowed" recReady =
      (recReady, [SpeechOut.forwardError "not-allowed"]) :=
  ⟨onRecError_policy.2.1 "audio-capture" recReady (Or.inr rfl),
   onRecError_policy.2.2 "not-allowed" recReady (by decide) (by decide) (by decide)⟩

/-! ## Synchronization Coordinator (`SynchronizationCoordinator`)

`executeTeachingSequence` is split at its cooperative suspension points into
`executeCall` (the entry check: queue the request when one is already
executing, else mark executing and begin) and `executeFinish` (the body
running to completion — try / catch / finally — given an oracle for the
outcomes of the successive `speechController.textToSpeech` calls, plus the
`finally` block that clears the flags and starts the next queued request).
Collaborator calls are recorded as `CoordEv` trace events. -/

/-- A queued teaching request (`SynchronizationEvent`). -/
structure SyncEvent where
  segments : List TeachingSegment
  fullText : String
  images : List String
deriving DecidableEq, Repr

/-- Observable coordinator effects on its collaborators. -/
inductive CoordEv where
  | setLeftPanel (text : String)
  | setRightPanelImages (images : List String)
  | gazeLookLeft (ms : Nat)
  | gazeLookRight (ms : Nat)
  | gazeLookCenter
  | synthesizeCall (text : String)
  | beginGestureSeq (gestures : List GestureType)
  | playAudioCall (url : String)
  | setSpeaking (b : Bool)
  | motionReturnToIdle
  | setIsTeaching (b : Bool)
deriving DecidableEq, Repr

/-- The app-store fields touched by the coordinator. -/
structure StoreState where
  leftPanelContent : String
  rightPanelImages : List String
  isSpeaking : Bool
  isTeaching : Bool
deriving DecidableEq, Repr

/-- Coordinator state: the single-flight flag, the FIFO queue, the segment
cursor, the sequence begun but not yet finished, the count of synthesize
calls already issued (index into the TTS oracle), and the store. -/
structure CoordState where
  isExecuting : Bool
  eventQueue : List SyncEvent
  currentSegmentIndex : Nat
  running : Option SyncEvent
  ttsCalls : Nat
  store : StoreState
deriving DecidableEq, Repr

/-- The fixed user-facing error message shown when TTS fails after retry. -/
def speechErrorMessage : String :=
  "Sorry, I encountered an error with speech generation. Please try again."

/-- The gestures requested by `executeGestureSequence` (segments with a
gesture hint, in order). -/
def gestureList (segments : List TeachingSegment) : List GestureType :=
  segments.filterMap (·.gesture)

/-- Success-path events after TTS (steps 4-5): spawn the gesture sequence,
mark speaking, look right 5000ms, play the audio, unmark speaking, return
the motion machine to idle and the gaze to center. -/
def successEvents (url : String) (ev : SyncEvent) : List CoordEv :=
  [CoordEv.beginGestureSeq (gestureList ev.segments), CoordEv.setSpeaking true,
   CoordEv.gazeLookRight 5000, CoordEv.playAudioCall url, CoordEv.setSpeaking false,
   CoordEv.motionReturnToIdle, CoordEv.gazeLookCenter]

/-- Catch-path events after the TTS retry also failed: no gesture or audio
playback, only cleanup and the fixed error message. -/
def catchEvents : List CoordEv :=
  [CoordEv.setSpeaking false, CoordEv.motionReturnToIdle, CoordEv.gazeLookCenter,
   CoordEv.setLeftPanel speechErrorMessage]

/-- Result of the try/catch body of one teaching sequence. -/
structure BodyResult where
  store : StoreState
  ttsCalls : Nat
  segIdx : Nat
  trace : List CoordEv
deriving Repr

/-- The try/catch body of `executeTeachingSequence` for one request:
publish `fullText` (step 1), publish images and look left 4000ms when
present (step 2), call TTS with one retry (step 3; `tts n` is the outcome
of the n-th synthesize call), then either the success path or the catch
path (speaking off, idle, center, fixed error message). -/
def runBody (tts : Nat → Option String) (n idx : Nat) (ev : SyncEvent)
    (st : StoreState) : BodyResult :=
  let st1 := if ev.images.isEmpty then { st with leftPanelContent := ev.fullText }
             else { st with leftPanelContent := ev.fullText, rightPanelImages := ev.images }
  let tr1 := CoordEv.setLeftPanel ev.fullText ::
             (if ev.images.isEmpty then []
              else [CoordEv.setRightPanelImages ev.images, CoordEv.gazeLookLeft 4000])
  let segIdxSucc := if ev.segments.isEmpty then idx else ev.segments.length - 1
  match tts n with
  | some url =>
    { store := { st1 with isSpeaking := false }, ttsCalls := n + 1, segIdx := segIdxSucc,
      trace := tr1 ++ [CoordEv.synthesizeCall ev.fullText] ++ successEvents url ev }
  | none =>
    match tts (n + 1) with
    | some url =>
      { store := { st1 with isSpeaking := false }, ttsCalls := n + 2, segIdx := segIdxSucc,
        trace := tr1 ++ [CoordEv.synthesizeCall ev.fullText, CoordEv.synthesizeCall ev.fullText]
                 ++ successEvents url ev }
    | none =>
      { store := { st1 with isSpeaking := false, leftPanelContent := speechErrorMessage },
        ttsCalls := n + 2, segIdx := idx,
        trace := tr1 ++ [CoordEv.synthesizeCall ev.fullText, CoordEv.synthesizeCall ev.fullText]
                 ++ catchEvents }

/-- The `finally` block: clear the in-flight flag, set `isTeaching` false,
and when the FIFO queue is non-empty dequeue its head and begin executing it
(the recursive `executeTeachingSequence` call sees `isExecuting = false` and
starts). -/
def finallyStep (s : CoordState) (tr : List CoordEv) : CoordState × List CoordEv :=
  let s1 := { s with isExecuting := false,
                     store := { s.store with isTeaching := false } }
  let tr1 := tr ++ [CoordEv.setIsTeaching false]
  match s1.eventQueue with
  | [] => (s1, tr1)
  | ev2 :: rest =>
    ({ s1 with eventQueue := rest, isExecuting := true, currentSegmentIndex := 0,
               running := some ev2 }, tr1)

/-- Entry of `executeTeachingSequence`: when a sequence is executing, append
the request to the FIFO queue and return immediately; else mark executing,
reset the segment cursor, and begin the sequence. -/
def executeCall (ev : SyncEvent) (s : CoordState) : CoordState × List CoordEv :=
  if s.isExecuting then ({ s with eventQueue := s.eventQueue ++ [ev] }, [])
  else ({ s with isExecuting := true, currentSegmentIndex := 0, running := some ev }, [])

/-- The begun sequence running to completion: body then `finally`. -/
def executeFinish (tts : Nat → Option String) (s : CoordState) :
    CoordState × List CoordEv :=
  match s.running with
  | none => (s, [])
  | some ev =>
    let b := runBody tts s.ttsCalls s.currentSegmentIndex ev s.store
    finallyStep { s with store := b.store, ttsCalls := b.ttsCalls,
                         currentSegmentIndex := b.segIdx, running := none } b.trace

/-- A coordinator at rest mid-teaching (caller has set `isTeaching`). -/
def coordInit : CoordState :=
  { isExecuting := false, eventQueue := [], currentSegmentIndex := 0, running := none,
    ttsCalls := 0,
    store := { leftPanelContent := "", rightPanelImages := [], isSpeaking := false,
               isTeaching := true } }

/-- Recognizer for synthesize-call trace events. -/
def isSynthesizeCall : CoordEv → Bool
  | .synthesizeCall _ => true
  | _ => false

/-- Recognizer for gesture-sequence-start trace events. -/
def isBeginGestureSeq : CoordEv → Bool
  | .beginGestureSeq _ => true
  | _ => false

/-- Recognizer for audio-playback trace events. -/
def isPlayAudioCall : CoordEv → Bool
  | .playAudioCall _ => true
  | _ => false

/-! ### Synchronization Coordinator theorems (C1, C3) -/

/-- C1: when every TTS call fails, one `executeTeachingSequence` run calls
the synthesis collaborator exactly twice (initial + one retry), never begins
gesture or audio playback, surfaces the fixed error message to the
text-display collaborator, and leaves `isTeaching = false`,
`isSpeaking = false` (and the in-flight flag clear) afterward. -/
theorem tts_double_failure_aborts (segments : List TeachingSegment)
    (fullText : String) (images : List String) :
    (((executeFinish (fun _ => none)
        (executeCall ⟨segments, fullText, images⟩ coordInit).1).2.countP
          isSynthesizeCall) = 2) ∧
    (((executeFinish (fun _ => none)
        (executeCall ⟨segments, fullText, images⟩ coordInit).1).2.countP
          isBeginGestureSeq) = 0) ∧
    (((executeFinish (fun _ => none)
        (executeCall ⟨segments, fullText, images⟩ coordInit).1).2.countP
          isPlayAudioCall) = 0) ∧
    CoordEv.setLeftPanel speechErrorMessage ∈
      (executeFinish (fun _ => none)
        (executeCall ⟨segments, fullText, images⟩ coordInit).1).2 ∧
    (executeFinish (fun _ => none)
        (executeCall ⟨segments, fullText, images⟩ coordInit).1).1.store.isTeaching = false ∧
    (executeFinish (fun _ => none)
        (executeCall ⟨segments, fullText, images⟩ coordInit).1).1.store.isSpeaking = false ∧
    (executeFinish (fun _ => none)
        (executeCall ⟨segments, fullText, images⟩ coordInit).1).1.isExecuting = false := by
  by_cases h : images.isEmpty <;>
    simp [executeCall, executeFinish, runBody, finallyStep, coordInit, catchEvents, h,
          isSynthesizeCall, isBeginGestureSeq, isPlayAudioCall, List.countP_cons,
          List.countP_append]

/-- C3: single-flight discipline — a call made while a sequence is executing
appends the request to the FIFO queue and returns immediately with no
effects and no new sequence begun; when the running sequence finishes (on
success or failure, i.e. for every TTS oracle) with a non-empty queue, the
head is dequeued and begun; with an empty queue the coordinator goes idle. -/
theorem coordinator_single_flight :
    (∀ (ev : SyncEvent) (s : CoordState), s.isExecuting = true →
        executeCall ev s = ({ s with eventQueue := s.eventQueue ++ [ev] }, []))
    ∧ (∀ (tts : Nat → Option String) (s : CoordState) (ev ev2 : SyncEvent)
          (rest : List SyncEvent),
        s.running = some ev → s.eventQueue = ev2 :: rest →
        (executeFinish tts s).1.running = some ev2 ∧
        (executeFinish tts s).1.eventQueue = rest ∧
        (executeFinish tts s).1.isExecuting = true)
    ∧ (∀ (tts : Nat → Option String) (s : CoordState) (ev : SyncEvent),
        s.running = some ev → s.eventQueue = [] →
        (executeFinish tts s).1.isExecuting = false ∧
        (executeFinish tts s).1.running = none) := by
  refine ⟨?_, ?_, ?_⟩
  · intro ev s h
    simp [executeCall, h]
  · intro tts s ev ev2 rest hr hq
    simp [executeFinish, hr, finallyStep, hq]
  · intro tts s ev hr hq
    simp [executeFinish, hr, finallyStep, hq]

/-- A coordinator busy running the request `⟨[], "a", []⟩`, empty queue. -/
def busyCoord : CoordState :=
  { coordInit with isExecuting := true, running := some ⟨[], "a", []⟩ }

/-- State `busyCoord` with one request queued behind the running one. -/
def busyCoordQueued : CoordState :=
  { busyCoord with eventQueue := [⟨[], "b", []⟩] }

/-- Witness for `coordinator_single_flight` on a concrete busy coordinator. -/
theorem coordinator_single_flight_witness :
    (executeCall ⟨[], "b", []⟩ busyCoord =
      ({ busyCoord with eventQueue := busyCoord.eventQueue ++ [⟨[], "b", []⟩] }, [])) ∧
    ((executeFinish (fun _ => some "url") busyCoordQueued).1.running = some ⟨[], "b", []⟩ ∧
     (executeFinish (fun _ => some "url") busyCoordQueued).1.eventQueue = [] ∧
     (executeFinish (fun _ => some "url") busyCoordQueued).1.isExecuting = true) ∧
    ((executeFinish (fun _ => none) busyCoord).1.isExecuting = false ∧
     (executeFinish (fun _ => none) busyCoord).1.running = none) :=
  ⟨coordinator_single_flight.1 ⟨[], "b", []⟩ busyCoord rfl,
   coordinator_single_flight.2.1 (fun _ => some "url") busyCoordQueued
      ⟨[], "a", []⟩ ⟨[], "b", []⟩ [] rfl rfl,
   coordinator_single_flight.2.2 (fun _ => none) busyCoord ⟨[], "a", []⟩ rfl rfl⟩

/-! ## Session Manager (`SessionManager`) -/

/-- One conversation exchange. -/
structure Exchange where
  userInput : String
  aiResponse : String
  timestamp : Nat
deriving DecidableEq, Repr

/-- Embedding of `SessionContext`. -/
structure SessionContext where
  sessionId : String
  exchanges : List Exchange
  startTime : Nat
  lastActivityTime : Nat
deriving DecidableEq, Repr

/-- Embedding of `SessionManager.MAX_EXCHANGES`. -/
def MAX_EXCHANGES : Nat := 10

/-- Embedding of `SessionManager.summarizeContext`: keep the last `MAX_EXCHANGES`
exchanges (`slice(-MAX)`), collapse the older ones (`slice(0, -MAX)`) into
one synthetic summary exchange prepended to the list. -/
def summarizeContext (ctx : SessionContext) : SessionContext :=
  let recentExchanges := ctx.exchanges.drop (ctx.exchanges.length - MAX_EXCHANGES)
  let olderExchanges := ctx.exchanges.take (ctx.exchanges.length - MAX_EXCHANGES)
  if olderExchanges.isEmpty then ctx
  else
    let summary := "[Earlier conversation summary: " ++ toString olderExchanges.length
                   ++ " exchanges about various topics]"
    { ctx with exchanges :=
        { userInput := "[Context Summary]", aiResponse := summary,
          timestamp := ctx.startTime } :: recentExchanges }

/-- Embedding of `SessionManager.addExchange` (`now` models `Date.now()`): push the
exchange, update the activity time, summarize when over the cap. -/
def addExchange (now : Nat) (userInput aiResponse : String)
    (ctx : SessionContext) : SessionContext :=
  let ctx1 := { ctx with
    exchanges := ctx.exchanges ++ [{ userInput := userInput, aiResponse := aiResponse,
                                     timestamp := now }],
    lastActivityTime := now }
  if MAX_EXCHANGES < ctx1.exchanges.length then summarizeContext ctx1 else ctx1

/-- Embedding of `SessionManager.initializeSession` (fresh context). -/
def initializeSession (now : Nat) (sid : String) : SessionContext :=
  { sessionId := sid, exchanges := [], startTime := now, lastActivityTime := now }

/-! ### Session Manager theorem (C7) -/

theorem summarizeContext_length (c : SessionContext)
    (h : MAX_EXCHANGES < c.exchanges.length) :
    (summarizeContext c).exchanges.length = MAX_EXCHANGES + 1 := by
  have hne : (c.exchanges.take (c.exchanges.length - MAX_EXCHANGES)).isEmpty ≠ true := by
    intro hx
    rw [List.isEmpty_eq_true] at hx
    have hlen := congrArg List.length hx
    simp only [List.length_take, List.length_nil] at hlen
    omega
  unfold summarizeContext
  rw [if_neg hne]
  simp only [List.length_cons, List.length_drop]
  omega

/-- C7: after any `addExchange` mutation the history length is at most
`MAX_EXCHANGES + 1`; and concretely, adding 15 exchanges to a fresh session
leaves exactly 11 exchanges with the synthetic summary exchange first. -/
theorem session_history_bounded :
    (∀ (now : Nat) (u a : String) (ctx : SessionContext),
        (addExchange now u a ctx).exchanges.length ≤ MAX_EXCHANGES + 1)
    ∧ (let ctx15 := (List.range 15).foldl
          (fun c i => addExchange i ("u" ++ toString i) ("a" ++ toString i) c)
          (initializeSession 0 "s")
       ctx15.exchanges.length = MAX_EXCHANGES + 1 ∧
       (ctx15.exchanges.head?.map Exchange.userInput) = some "[Context Summary]") := by
  constructor
  · intro now u a ctx
    unfold addExchange
    by_cases h : MAX_EXCHANGES <
        (ctx.exchanges ++ [({ userInput := u, aiResponse := a, timestamp := now } : Exchange)]).length
    · rw [if_pos h, summarizeContext_length _ h]
    · rw [if_neg h]
      simp only [List.length_append, List.length_cons, List.length_nil] at *
      omega
  · exact ⟨by decide, by decide⟩

/-- Witness for `session_history_bounded` at a concrete full history. -/
theorem session_history_bounded_witness :
    (addExchange 20 "u" "a"
      { sessionId := "s", startTime := 0, lastActivityTime := 19,
        exchanges := (List.range 12).map
          (fun i => { userInput := "x", aiResponse := "y", timestamp := i }) }).exchanges.length
      ≤ MAX_EXCHANGES + 1 :=
  session_history_bounded.1 20 "u" "a"
    { sessionId := "s", startTime := 0, lastActivityTime := 19,
      exchanges := (List.range 12).map
        (fun i => { userInput := "x", aiResponse := "y", timestamp := i }) }

end Finxan
